import Mathlib

/-!
Verification of the x402 payment core of the nullpath MCP client.

This file shallowly embeds the payment-handling modules of the repository
(`src/lib/payment.ts`, `src/lib/awal.ts`, `src/lib/wallet.ts`,
`src/lib/eip3009.ts`) as executable Lean definitions and proves the
specified properties about them.  JavaScript machine behaviour that the
code relies on (truthiness, `BigInt` conversion, `JSON.parse` turning
integer number literals into IEEE-754 doubles) is modelled explicitly.
-/

namespace Nullpath

/-! ## JavaScript value model

A decoded 402 payload field is either a JSON string or a JSON integer
number literal.  `JsonLit` is the literal as written on the wire;
`JsVal` is the runtime value after `JSON.parse` (number literals become
IEEE-754 doubles, modelled for integer literals by rounding to the
nearest representable double).  All payloads appearing in the claims
carry only strings and integer-valued numbers, so fractional literals
are out of scope of the model. -/

/-- A JSON literal occurring as a field of the 402 payload, as written in
the JSON text (numbers are arbitrary-precision here). -/
inductive JsonLit where
  | str (s : String)
  | num (n : Int)
deriving Repr, DecidableEq

/-- A JavaScript runtime value of a payload field after `JSON.parse`. -/
inductive JsVal where
  | str (s : String)
  | num (n : Int)
deriving Repr, DecidableEq

/-- Fueled base-2 logarithm.  Structural recursion on the fuel keeps it
kernel-evaluable; 1100 halvings cover every magnitude a finite double
can take. -/
def log2Fuel : Nat → Nat → Nat
  | 0, _ => 0
  | fuel + 1, n => if n ≤ 1 then 0 else log2Fuel fuel (n / 2) + 1

/-- Base-2 logarithm used by the double-rounding model. -/
def natLog2 (n : Nat) : Nat := log2Fuel 1100 n

/-- Round a natural number to the nearest IEEE-754 double
(round-to-nearest, ties-to-even).  Below `2 ^ 53` every natural is
representable; above, doubles are spaced `2 ^ (log2 n - 52)` apart.
(Overflow to infinity beyond `2 ^ 1024` is not modelled; no claim goes
near it.) -/
def roundToDouble (n : Nat) : Nat :=
  if n < 2 ^ 53 then n
  else
    let e := natLog2 n - 52
    let q := n / 2 ^ e
    let r := n % 2 ^ e
    let half := 2 ^ (e - 1)
    if r < half then q * 2 ^ e
    else if half < r then (q + 1) * 2 ^ e
    else if q % 2 = 0 then q * 2 ^ e else (q + 1) * 2 ^ e

/-- Round an integer to the nearest IEEE-754 double. -/
def intRoundToDouble (n : Int) : Int :=
  if n < 0 then -(roundToDouble n.natAbs : Int) else (roundToDouble n.natAbs : Int)

/-- `JSON.parse` semantics on a single field literal: strings stay
strings, integer number literals become the nearest double. -/
def jsValOf : JsonLit → JsVal
  | .str s => .str s
  | .num n => .num (intRoundToDouble n)

/-- JavaScript truthiness of a payload field value (`""` and `0` are
falsy, everything else in our value space is truthy). -/
def jsTruthy : JsVal → Bool
  | .str s => s != ""
  | .num n => n != 0

/-- Truthiness of a possibly-`undefined` value (`undefined` is falsy). -/
def truthyOpt : Option JsVal → Bool
  | some v => jsTruthy v
  | none => false

/-- JavaScript `a || b` on two possibly-missing payload fields: yields
`a`'s value when truthy, else `b`'s value (or `undefined`). -/
def jsOr2 (a b : Option JsonLit) : Option JsVal :=
  match a.map jsValOf with
  | some v => if jsTruthy v then some v else b.map jsValOf
  | none => b.map jsValOf

/-- JavaScript `field || default` where `default` is a literal constant. -/
def fieldOr (f : Option JsonLit) (d : JsVal) : JsVal :=
  match f with
  | none => d
  | some lit => let v := jsValOf lit; if jsTruthy v then v else d

/-- Value of a run of decimal digits (`none` when empty or non-digit). -/
def digitsVal? (l : List Char) : Option Nat :=
  if l.isEmpty then none
  else
    l.foldl
      (fun acc c => acc.bind fun a => if c.isDigit then some (a * 10 + (c.toNat - 48)) else none)
      (some 0)

/-- Whitespace trimming on the character list (the semantics of the
string trimming JavaScript performs before numeric conversion). -/
def trimChars (l : List Char) : List Char :=
  ((l.dropWhile Char.isWhitespace).reverse.dropWhile Char.isWhitespace).reverse

/-- JavaScript `BigInt(string)`: trimmed, the empty string is `0n`,
otherwise an optionally signed run of decimal digits; anything else
throws (`none`). -/
def bigIntOfString? (s : String) : Option Int :=
  match trimChars s.data with
  | [] => some 0
  | c :: cs =>
    if c = '-' then (digitsVal? cs).map fun n => -(n : Int)
    else if c = '+' then (digitsVal? cs).map fun n => (n : Int)
    else (digitsVal? (c :: cs)).map fun n => (n : Int)

/-- JavaScript `BigInt(value)` on a payload value.  Our `.num` values are
integer-valued doubles, for which `BigInt` is exact. -/
def jsBigInt? : JsVal → Option Int
  | .str s => bigIntOfString? s
  | .num n => some n

/-- JavaScript `Number(value)` restricted to integer results; `none`
models `NaN` (fractional results do not occur in any claim). -/
def jsNumber? : JsVal → Option Int
  | .num n => some n
  | .str s =>
    match trimChars s.data with
    | [] => some 0
    | c :: cs =>
      if c = '-' then (digitsVal? cs).map fun n => -(n : Int)
      else (digitsVal? (c :: cs)).map fun n => (n : Int)

/-- String view of a runtime value (recipient/asset fields are strings in
every claim; a numeric value is shown in decimal, matching its eventual
JS string coercion). -/
def asStringVal : JsVal → String
  | .str s => s
  | .num n => toString n

/-- Lower-casing as performed by JavaScript on header names and
addresses (`toLowerCase`); all strings involved are ASCII, for which
this per-character map is exact. -/
def asciiLower (s : String) : String := String.mk (s.data.map Char.toLower)


/-! ## Requirements parser (`src/lib/payment.ts`, `parsePaymentHeader`) -/

/-- USDC contract address on Base mainnet (`src/lib/eip3009.ts`). -/
def USDC_ADDRESS_BASE : String := "0x833589fCD6eDb6E08f4c7C32D4f71b54bdA02913"

/-- Expected network for payments, Base mainnet (`src/lib/payment.ts`). -/
def EXPECTED_NETWORK : Int := 8453

/-- The decoded JSON object carried (base64-encoded) in the
`X-PAYMENT-REQUIRED` header.  Each field is optional; `none` is a missing
key (`undefined`). -/
structure PaymentPayloadJson where
  recipient : Option JsonLit := none
  payee : Option JsonLit := none
  amount : Option JsonLit := none
  maxAmountRequired : Option JsonLit := none
  asset : Option JsonLit := none
  usdcAddress : Option JsonLit := none
  network : Option JsonLit := none
  chainId : Option JsonLit := none
  validAfter : Option JsonLit := none
  validBefore : Option JsonLit := none
deriving Repr, DecidableEq

/-- Validated payment requirements (`PaymentRequirements` in
`src/lib/payment.ts`).  `network` is `Option Int`: `none` models a `NaN`
result of `Number(...)`. -/
structure PaymentRequirements where
  recipient : String
  amount : Int
  asset : String
  network : Option Int
  validAfter : Int
  validBefore : Int
deriving Repr, DecidableEq

/-- Which `throw` site inside `parsePaymentHeader` produced the error.
In the source every one of these is surfaced as a `PaymentRequiredError`
whose message identifies the site; the spec groups all but `expired`
under the malformed-requirements kind. -/
inductive ParseErrorKind where
  | malformedDecode
  | badBigInt
  | expired
  | missingRecipientOrAmount
  | missingHeader
deriving Repr, DecidableEq

/-- Spec error taxonomy: every parse failure except expiry is of the
malformed-requirements kind. -/
def ParseErrorKind.isMalformed : ParseErrorKind → Bool
  | .expired => false
  | _ => true

/-- `data.recipient || data.payee`. -/
def recipientVal (data : PaymentPayloadJson) : Option JsVal :=
  jsOr2 data.recipient data.payee

/-- `data.amount || data.maxAmountRequired`. -/
def amountVal (data : PaymentPayloadJson) : Option JsVal :=
  jsOr2 data.amount data.maxAmountRequired

/-- `data.asset || data.usdcAddress`. -/
def assetVal (data : PaymentPayloadJson) : Option JsVal :=
  jsOr2 data.asset data.usdcAddress

/-- `data.network || data.chainId || 8453`. -/
def networkVal (data : PaymentPayloadJson) : JsVal :=
  match jsOr2 data.network data.chainId with
  | some v => if jsTruthy v then v else .num 8453
  | none => .num 8453

/-- `BigInt(data.validAfter || 0)`; `none` when `BigInt` throws. -/
def resolvedValidAfter? (data : PaymentPayloadJson) : Option Int :=
  jsBigInt? (fieldOr data.validAfter (.num 0))

/-- `BigInt(data.validBefore || now + 300)`; `none` when `BigInt` throws. -/
def resolvedValidBefore? (data : PaymentPayloadJson) (now : Int) : Option Int :=
  jsBigInt? (fieldOr data.validBefore (.num (now + 300)))

/-- Embedding of `parsePaymentHeader` (`src/lib/payment.ts` lines
122-161), starting from the result of the base64 + `JSON.parse` step
(`none` models a structural decode failure).  The order of the error
sites follows the source: `BigInt` conversions of the validity window,
then the expiry check, then the missing recipient/amount check, then the
`BigInt` conversion of the amount in the returned object. -/
def parsePaymentHeader (decoded : Option PaymentPayloadJson) (now : Int) :
    Except ParseErrorKind PaymentRequirements :=
  match decoded with
  | none => .error .malformedDecode
  | some data =>
    match resolvedValidAfter? data with
    | none => .error .badBigInt
    | some validAfter =>
      match resolvedValidBefore? data now with
      | none => .error .badBigInt
      | some validBefore =>
        if validBefore ≤ now then .error .expired
        else if (truthyOpt (recipientVal data) && truthyOpt (amountVal data)) = false then
          .error .missingRecipientOrAmount
        else
          match (amountVal data).bind jsBigInt? with
          | none => .error .badBigInt
          | some amount =>
            .ok
              { recipient := asStringVal ((recipientVal data).getD (.str ""))
                amount := amount
                asset :=
                  match assetVal data with
                  | some v => if jsTruthy v then asStringVal v else USDC_ADDRESS_BASE
                  | none => USDC_ADDRESS_BASE
                network := jsNumber? (networkVal data)
                validAfter := validAfter
                validBefore := validBefore }

/-! ## EIP-3009 signing (`src/lib/eip3009.ts`) -/

/-- Parameters of a `TransferWithAuthorization` message
(`TransferAuthorizationParams` in the source; the source field `from` is
a Lean keyword and is embedded as `fromAddr`). -/
structure TransferAuthorizationParams where
  fromAddr : String
  toAddr : String
  value : Int
  validAfter : Int
  validBefore : Int
  nonce : String
deriving Repr, DecidableEq

/-- `parseInt(s, 16)`: value of the longest prefix of hexadecimal
digits; `none` models `NaN` (no leading hex digit). -/
def hexNat? (s : String) : Option Nat :=
  let ds := s.data.takeWhile fun c => c.isDigit || ("abcdefABCDEF".data.contains c)
  if ds.isEmpty then none
  else
    some (ds.foldl (fun a c =>
      a * 16 + (if c.isDigit then c.toNat - 48
        else if c.toNat ≥ 97 then c.toNat - 87 else c.toNat - 55)) 0)

/-- `String.slice(a, b)` for in-range arguments. -/
def strSlice (s : String) (a b : Nat) : String :=
  ((s.data.drop a).take (b - a)).asString

/-- Signed authorization with decomposed signature components
(`SignedTransferAuthorization` in the source).  `v` is `Option Nat`:
`none` models a `NaN` result of `parseInt`. -/
structure SignedTransferAuthorization extends TransferAuthorizationParams where
  signature : String
  v : Option Nat
  r : String
  s : String
deriving Repr, DecidableEq

/-- The `throw` sites of `signTransferAuthorization`. -/
inductive SignErr where
  | noAccount
  | fromMismatch
  | badLength (len : Nat)
deriving Repr, DecidableEq

/-- Embedding of `signTransferAuthorization` (`src/lib/eip3009.ts` lines
125-174).  The underlying typed-data signer is modelled by its output
`signature` (the string `walletClient.signTypedData` resolves to); the
second component counts how many times that signer was invoked.  The
checks follow the source order: missing account, `from`/account
mismatch, then — after the signer call — the exact-length check, then
the `v`/`r`/`s` split. -/
def signTransferAuthorization (account : Option String)
    (params : TransferAuthorizationParams) (signature : String) :
    Except SignErr SignedTransferAuthorization × Nat :=
  match account with
  | none => (.error .noAccount, 0)
  | some addr =>
    if asciiLower params.fromAddr != asciiLower addr then (.error .fromMismatch, 0)
    else if signature.length != 132 then (.error (.badLength signature.length), 1)
    else
      (.ok
        { toTransferAuthorizationParams := params
          signature := signature
          r := "0x" ++ strSlice signature 2 66
          s := "0x" ++ strSlice signature 66 130
          v := hexNat? (strSlice signature 130 132) }, 1)

/-! ## Wallet and payment-backend selection (`src/lib/wallet.ts`) -/

/-- Status of the awal CLI probe (`AwalStatus` in `src/lib/awal.ts`). -/
structure AwalStatus where
  available : Bool
  authenticated : Bool
  address : Option String := none
  error : Option String := none
deriving Repr, DecidableEq

/-- Payment method preference (`PaymentMethod` in `src/lib/wallet.ts`). -/
inductive PaymentMethod where
  | awal
  | direct
  | none
deriving Repr, DecidableEq

/-- Resolved payment configuration (`PaymentConfig` in the source). -/
structure PaymentConfig where
  method : PaymentMethod
  address : Option String := none
  awalStatus : Option AwalStatus := none
deriving Repr, DecidableEq

/-- `isAwalForced` (`src/lib/awal.ts` lines 77-80): the forcing
environment variable must be exactly `"true"` or `"1"`. -/
def isAwalForced (env : Option String) : Bool :=
  env == some "true" || env == some "1"

/-- `isWalletConfigured` (`src/lib/wallet.ts`): `!!process.env[KEY]`,
so the empty string does not count as configured. -/
def isWalletConfigured (walletKey : Option String) : Bool :=
  match walletKey with
  | some k => k != ""
  | none => false

/-- `getWalletAddress` given the environment key; `deriveAddr` models
key normalisation plus `privateKeyToAccount` (`none` = invalid key). -/
def getWalletAddress (walletKey : Option String)
    (deriveAddr : String → Option String) : Option String :=
  match walletKey with
  | some k => deriveAddr k
  | none => none

/-- Embedding of `getPaymentConfig` (`src/lib/wallet.ts` lines 198-232):
awal wins when available and authenticated; a forced awal that is not
usable yields `none` (no fallback); otherwise a configured local key
selects direct signing. -/
def getPaymentConfig (forceAwal : Bool) (awalStatus : AwalStatus)
    (walletKey : Option String) (deriveAddr : String → Option String) : PaymentConfig :=
  if awalStatus.available && awalStatus.authenticated then
    { method := .awal, address := awalStatus.address, awalStatus := some awalStatus }
  else if forceAwal then
    { method := .none, awalStatus := some awalStatus }
  else if isWalletConfigured walletKey then
    { method := .direct, address := getWalletAddress walletKey deriveAddr }
  else
    { method := .none }

/-! ## Delegate invocation (`src/lib/awal.ts`, `awalPay`) -/

/-- A process invocation as handed to Node's `execFile`: an executable
name and a literal argument vector.  `execFile` spawns the program with
this vector directly and never involves a shell, recorded by
`usesShell`. -/
structure ExecFileInvocation where
  file : String
  args : List String
  usesShell : Bool
deriving Repr, DecidableEq

/-- Embedding of the argument-vector construction of `awalPay`
(`src/lib/awal.ts` lines 179-208): fixed subcommand tokens, the URL as
its own element, optional `-X METHOD` (only when not `GET`, the
destructuring default), optional `-d BODY` (only when truthy, so not for
the empty string), one `-H "k: v"` pair per header, and `--json`. -/
def awalPayInvocation (url : String) (method : Option String)
    (body : Option String) (headers : Option (List (String × String))) :
    ExecFileInvocation :=
  let meth := method.getD "GET"
  let args := ["awal@latest", "x402", "pay", url]
  let args := if meth != "GET" then args ++ ["-X", meth] else args
  let args :=
    match body with
    | some b => if b != "" then args ++ ["-d", b] else args
    | none => args
  let args :=
    match headers with
    | some hs => args ++ hs.foldl (fun acc kv => acc ++ ["-H", kv.1 ++ ": " ++ kv.2]) []
    | none => args
  { file := "npx", args := args ++ ["--json"], usesShell := false }

/-- Outcome of a completed `awal x402 pay` run as already shaped by
`awalPay`'s response handling (`AwalPaymentResponse` in the source). -/
structure AwalPayResult where
  success : Bool
  body : Option String := none
  statusCode : Option Nat := none
  error : Option String := none
deriving Repr, DecidableEq

/-! ## Header construction (`src/lib/payment.ts`, `buildHeaders`) -/

/-- `Headers.set`: header names are normalised to lower case; `set`
replaces the existing entry for the name (names are unique in a
`Headers` object) or appends a new one. -/
def headersSet (hs : List (String × String)) (k v : String) : List (String × String) :=
  match hs with
  | [] => [(asciiLower k, v)]
  | kv :: tl => if kv.1 == asciiLower k then (asciiLower k, v) :: tl else kv :: headersSet tl k v

/-- `new Headers(init)` from a plain object: every entry is `set` in
order (duplicate keys cannot occur in an object literal). -/
def mkHeaders (base : List (String × String)) : List (String × String) :=
  base.foldl (fun acc kv => headersSet acc kv.1 kv.2) []

/-- `Headers.get` (case-insensitive): the stored value for the name. -/
def headersGet (hs : List (String × String)) (name : String) : Option String :=
  (hs.find? fun kv => kv.1 == asciiLower name).map fun kv => kv.2

/-- Embedding of `buildHeaders` (`src/lib/payment.ts` lines 228-237):
construct a `Headers` from the caller's headers, then `set` every extra
entry over it — so the extras overwrite caller-supplied values. -/
def buildHeaders (base : List (String × String)) (extra : List (String × String)) :
    List (String × String) :=
  extra.foldl (fun acc kv => headersSet acc kv.1 kv.2) (mkHeaders base)

/-! ## Payment-aware fetch orchestrator (`src/lib/payment.ts`) -/

/-- A fetch `Response`: status, headers (as delivered, looked up
case-insensitively) and body text. -/
structure Response where
  status : Nat
  headers : List (String × String) := []
  body : String := ""
deriving Repr, DecidableEq

/-- `Headers.get` on a response. -/
def Response.headerGet (r : Response) (name : String) : Option String :=
  (r.headers.find? fun kv => asciiLower kv.1 == asciiLower name).map fun kv => kv.2

/-- `Response.ok`: status in the 200-299 range. -/
def Response.isOk (r : Response) : Bool :=
  200 ≤ r.status && r.status ≤ 299

/-- Caller-supplied `RequestInit` options. -/
structure RequestOptions where
  method : Option String := none
  body : Option String := none
  headers : List (String × String) := []
deriving Repr, DecidableEq

/-- One network request actually issued by the orchestrator. -/
structure RequestRecord where
  url : String
  method : Option String
  body : Option String
  headers : List (String × String)
deriving Repr, DecidableEq

/-- `createWallet` failure modes (`src/lib/wallet.ts`). -/
inductive WalletErr where
  | notConfigured
  | invalidKey
deriving Repr, DecidableEq

/-- A wallet identity (`NullpathWallet`): only the address is relevant
to the embedded logic; the signing client is modelled by the signature
it produces (see `signTransferAuthorization`). -/
structure WalletIdentity where
  address : String
deriving Repr, DecidableEq

/-- User-facing error taxonomy of the payment flow, one constructor per
distinct `throw` in `src/lib/payment.ts`. -/
inductive PayError where
  | walletNotConfigured
  | parseError (k : ParseErrorKind)
  | parseNullRequirements
  | requirementsMismatch
  | signingFailed (msg : String)
  | rejected (detail : String) (requirements : PaymentRequirements)
  | upstreamFailed (status : Nat) (body : String)
  | awalError (msg : String)
  | noScriptedResponse
deriving Repr, DecidableEq

/-- Embedding of `signPayment` (`src/lib/payment.ts` lines 170-203):
network/asset precondition first (case-insensitive asset comparison),
then the EIP-3009 signing via `signTransferAuthorization` with a fresh
`nonce`, any signing failure wrapped as a signing-failed error.  The
second component counts invocations of the underlying typed-data
signer. -/
def signPayment (wallet : WalletIdentity) (req : PaymentRequirements)
    (nonce : String) (signerSig : String) :
    Except PayError SignedTransferAuthorization × Nat :=
  if (req.network != some EXPECTED_NETWORK)
      || (asciiLower req.asset != asciiLower USDC_ADDRESS_BASE) then
    (.error .requirementsMismatch, 0)
  else
    match signTransferAuthorization (some wallet.address)
        { fromAddr := wallet.address, toAddr := req.recipient, value := req.amount
          validAfter := req.validAfter, validBefore := req.validBefore
          nonce := nonce } signerSig with
    | (.ok signed, n) => (.ok signed, n)
    | (.error _, n) => (.error (.signingFailed "Failed to sign payment"), n)

/-- The `X-PAYMENT` header payload (`PaymentPayload` in the source), all
integer fields rendered as decimal strings by `encodePaymentHeader`. -/
structure PaymentPayload where
  signature : String
  fromAddr : String
  toAddr : String
  value : String
  validAfter : String
  validBefore : String
  nonce : String
deriving Repr, DecidableEq

/-- Field shaping of `encodePaymentHeader` (`src/lib/payment.ts` lines
211-223) before the `JSON.stringify` + base64 step. -/
def encodePaymentPayload (signed : SignedTransferAuthorization) : PaymentPayload :=
  { signature := signed.signature
    fromAddr := signed.fromAddr
    toAddr := signed.toAddr
    value := toString signed.value
    validAfter := toString signed.validAfter
    validBefore := toString signed.validBefore
    nonce := signed.nonce }

/-- Embedding of `parsePaymentRequired` (`src/lib/payment.ts` lines
99-117): `null` (`.ok none`) for non-402 responses, an error when the
`X-PAYMENT-REQUIRED` header is absent (under `Headers.get` both spelled
names are the same case-insensitive lookup), otherwise the header value
is decoded (`decode` models base64 + `JSON.parse`) and parsed. -/
def parsePaymentRequired (decode : String → Option PaymentPayloadJson)
    (now : Int) (response : Response) :
    Except ParseErrorKind (Option PaymentRequirements) :=
  if response.status != 402 then .ok none
  else
    match response.headerGet "X-PAYMENT-REQUIRED" with
    | some h => (parsePaymentHeader (decode h) now).map some
    | none =>
      match response.headerGet "X-Payment-Required" with
      | some h => (parsePaymentHeader (decode h) now).map some
      | none => .error .missingHeader

/-- Everything ambient to one `fetchWithPayment` call: environment
variables, probe status, key-derivation and wallet-construction
outcomes, the signer's output, the nonce drawn for this attempt, the
base64/JSON codecs, the awal delegate outcome, the current time and the
scripted sequence of network responses (request `k` receives
`script[k]`). -/
structure World where
  forceAwalEnv : Option String := none
  awalStatus : AwalStatus := { available := false, authenticated := false }
  walletKey : Option String := none
  deriveAddr : String → Option String := fun _ => none
  createWalletResult : Except WalletErr WalletIdentity := .error .notConfigured
  nonce : String := ""
  signerSig : String := ""
  encodeHeader : SignedTransferAuthorization → String := fun _ => ""
  decode : String → Option PaymentPayloadJson := fun _ => none
  awalResult : Except String AwalPayResult := .error ""
  now : Int := 0
  script : List Response := []

/-- Embedding of `handleAwalPayment` (`src/lib/payment.ts` lines
309-368): caller headers keep their `Content-Type` (default only when
absent), the delegate performs the paid call itself (no fetch is
issued here), a failed result raises the awal error with the reported
message (or a fixed fallback for a missing/empty one), and a success is
synthesised into a `Response` whose status defaults to 200. -/
def handleAwalPayment (w : World) : Except PayError Response × List RequestRecord :=
  match w.awalResult with
  | .error msg => (.error (.awalError msg), [])
  | .ok result =>
    if result.success = false then
      let msg :=
        match result.error with
        | some e => if e = "" then "awal payment failed" else e
        | none => "awal payment failed"
      (.error (.awalError msg), [])
    else
      (.ok
        { status :=
            match result.statusCode with
            | some n => if n != 0 then n else 200
            | none => 200
          headers := [("Content-Type", "application/json"), ("X-Payment-Method", "awal")]
          body := result.body.getD "" }, [])

/-- Embedding of `handleDirectPayment` (`src/lib/payment.ts` lines
373-429): parse the 402 requirements, construct the wallet (an invalid
key becomes a signing-configuration error, a missing key is rethrown),
sign, retry exactly once with the payment header merged in, then
classify: a second 402 is the rejected-payment error carrying the retry
body text (or `"no details"`) and the parsed requirements; any other
non-2xx is an upstream failure.  The returned list holds the requests
this handler issued (at most the single retry). -/
def handleDirectPayment (w : World) (url : String) (opts : RequestOptions)
    (initialResponse : Response) : Except PayError Response × List RequestRecord :=
  match parsePaymentRequired w.decode w.now initialResponse with
  | .error k => (.error (.parseError k), [])
  | .ok none => (.error .parseNullRequirements, [])
  | .ok (some requirements) =>
    match w.createWalletResult with
    | .error .invalidKey => (.error (.signingFailed "Invalid wallet configuration"), [])
    | .error .notConfigured => (.error .walletNotConfigured, [])
    | .ok wallet =>
      match (signPayment wallet requirements w.nonce w.signerSig).1 with
      | .error e => (.error e, [])
      | .ok signed =>
        let retryHeaders := buildHeaders opts.headers
          [("Content-Type", "application/json"), ("X-PAYMENT", w.encodeHeader signed)]
        let retryReq : RequestRecord :=
          { url := url, method := opts.method, body := opts.body, headers := retryHeaders }
        match w.script.get? 1 with
        | none => (.error .noScriptedResponse, [retryReq])
        | some retry =>
          if retry.status = 402 then
            (.error (.rejected (if retry.body = "" then "no details" else retry.body)
              requirements), [retryReq])
          else if retry.isOk = false then
            (.error (.upstreamFailed retry.status retry.body), [retryReq])
          else
            (.ok retry, [retryReq])

/-- Embedding of `fetchWithPayment` (`src/lib/payment.ts` lines
269-304): resolve the payment configuration, issue the initial request
with the default content type merged in, pass non-402 responses through
unchanged, fail without a configured method, otherwise delegate to the
awal or direct handler.  Returns the outcome together with every
request actually issued. -/
def fetchWithPayment (w : World) (url : String) (opts : RequestOptions) :
    Except PayError Response × List RequestRecord :=
  let paymentConfig :=
    getPaymentConfig (isAwalForced w.forceAwalEnv) w.awalStatus w.walletKey w.deriveAddr
  let initialHeaders := buildHeaders opts.headers [("Content-Type", "application/json")]
  let initialReq : RequestRecord :=
    { url := url, method := opts.method, body := opts.body, headers := initialHeaders }
  match w.script.get? 0 with
  | none => (.error .noScriptedResponse, [initialReq])
  | some response =>
    if response.status != 402 then (.ok response, [initialReq])
    else if paymentConfig.method = .none then (.error .walletNotConfigured, [initialReq])
    else if paymentConfig.method = .awal then
      let res := handleAwalPayment w
      (res.1, initialReq :: res.2)
    else
      let res := handleDirectPayment w url opts response
      (res.1, initialReq :: res.2)

/-- Embedding of `formatUsdcAmount` (`src/lib/payment.ts` lines
434-439): bigint division and remainder (both truncating, as in
JavaScript), the fraction left-padded to six digits. -/
def padStart (s : String) (n : Nat) (c : Char) : String :=
  String.mk (List.replicate (n - s.length) c) ++ s

/-- `formatUsdcAmount` itself. -/
def formatUsdcAmount (atomic : Int) : String :=
  let whole := Int.tdiv atomic 1000000
  let fraction := Int.tmod atomic 1000000
  let fractionStr := padStart (toString fraction) 6 '0'
  "$" ++ toString whole ++ "." ++ fractionStr ++ " USDC"

/-! ## Concrete instances used by witnesses and counterexamples -/

/-- A 402 payload with an amount but no recipient whose `validBefore`
(10) is far in the past relative to `now = 1000`. -/
def payloadC2 : PaymentPayloadJson := { amount := some (.num 5), validBefore := some (.num 10) }

/-- A 402 payload with an amount but no recipient and a valid window. -/
def payloadC2b : PaymentPayloadJson :=
  { amount := some (.str "5"), validBefore := some (.num 5000) }

/-- A structurally valid payload whose amount is the JSON number
`2 ^ 53 + 1`. -/
def payloadC6 : PaymentPayloadJson :=
  { recipient := some (.str "0xabc"), amount := some (.num 9007199254740993),
    validBefore := some (.num 99999999999) }

/-- A payload carrying the amount `2 ^ 53 + 1` as a numeric string. -/
def payloadC6a : PaymentPayloadJson :=
  { recipient := some (.str "0xR"), amount := some (.str "9007199254740993"),
    validBefore := some (.num 2000) }

/-- A payload carrying a small amount as a JSON number. -/
def payloadC6b : PaymentPayloadJson :=
  { recipient := some (.str "0xR"), amount := some (.num 7), validBefore := some (.num 2000) }

/-- A payload whose amount is the JSON number `0` (and no
`maxAmountRequired`), with a valid window. -/
def payloadC10a : PaymentPayloadJson :=
  { recipient := some (.str "0xR"), amount := some (.num 0), validBefore := some (.num 2000) }

/-- A payload whose `validBefore` is the JSON number `0`. -/
def payloadC10b : PaymentPayloadJson :=
  { recipient := some (.str "0xR"), amount := some (.str "7"), validBefore := some (.num 0) }

/-- A payload with a recipient, the amount `0` as a JSON number, no
`maxAmountRequired`, and `validBefore = 50`, far in the past relative to
`now = 1000`. -/
def payloadC10c : PaymentPayloadJson :=
  { recipient := some (.str "0xR"), amount := some (.num 0), validBefore := some (.num 50) }

/-- A 132-character signature string (65 bytes in hex with the `0x`
prefix), the length the scheme requires. -/
def sigC3 : String := String.mk (List.replicate 132 'a')

/-- The decoded 402 payload served by the scripted server of the C3
witness. -/
def payloadC3 : PaymentPayloadJson :=
  { recipient := some (.str "0xRec"), amount := some (.str "7"),
    validBefore := some (.num 2000) }

/-- The requirements `payloadC3` parses to at `now = 1000`. -/
def reqC3 : PaymentRequirements :=
  { recipient := "0xRec", amount := 7, asset := USDC_ADDRESS_BASE, network := some 8453,
    validAfter := 0, validBefore := 2000 }

/-- The wallet identity of the C3 witness. -/
def walletC3 : WalletIdentity := { address := "0xA" }

/-- The signed authorization `signPayment` produces in the C3 witness. -/
def signedC3 : SignedTransferAuthorization :=
  { fromAddr := "0xA", toAddr := "0xRec", value := 7, validAfter := 0, validBefore := 2000,
    nonce := "0xN", signature := sigC3, v := hexNat? (strSlice sigC3 130 132),
    r := "0x" ++ strSlice sigC3 2 66, s := "0x" ++ strSlice sigC3 66 130 }

/-- Initial scripted response: 402 with a payment-required header. -/
def r1C3 : Response :=
  { status := 402, headers := [("X-PAYMENT-REQUIRED", "hdr")], body := "" }

/-- Retry scripted response: a second 402 with a body. -/
def r2C3 : Response := { status := 402, body := "denied" }

/-- The fully concrete world of the C3 witness. -/
def worldC3 : World :=
  { walletKey := some "0xkey", createWalletResult := .ok walletC3, nonce := "0xN",
    signerSig := sigC3, encodeHeader := fun _ => "PH",
    decode := fun _ => some payloadC3, now := 1000, script := [r1C3, r2C3] }

/-- Caller options carrying an explicit `Content-Type`. -/
def optsC8 : RequestOptions := { headers := [("Content-Type", "text/plain")] }

/-- A world whose scripted server immediately answers 200. -/
def worldC8 : World := { script := [{ status := 200 }] }

/-! ## Helper lemmas -/

/-- Naturals up to `2 ^ 53` are exactly representable as doubles. -/
theorem roundToDouble_eq_self (n : Nat) (h : n ≤ 2 ^ 53) : roundToDouble n = n := by
  rcases Nat.lt_or_ge n (2 ^ 53) with h1 | h1
  · unfold roundToDouble; rw [if_pos h1]
  · have h2 : n = 2 ^ 53 := le_antisymm h h1
    subst h2
    decide

/-- Integers of magnitude up to `2 ^ 53` are exactly representable. -/
theorem intRoundToDouble_eq_self (m : Int) (h : m.natAbs ≤ 2 ^ 53) : intRoundToDouble m = m := by
  unfold intRoundToDouble
  rw [roundToDouble_eq_self _ h]
  split <;> omega

/-- When every validation step passes, `parsePaymentHeader` returns the
requirements object assembled from the extracted fields. -/
theorem parsePaymentHeader_ok (data : PaymentPayloadJson) (now va vb a : Int)
    (hva : resolvedValidAfter? data = some va)
    (hvb : resolvedValidBefore? data now = some vb) (hlt : now < vb)
    (hrec : truthyOpt (recipientVal data) = true)
    (hamt : truthyOpt (amountVal data) = true)
    (hbig : (amountVal data).bind jsBigInt? = some a) :
    parsePaymentHeader (some data) now = .ok
      { recipient := asStringVal ((recipientVal data).getD (.str ""))
        amount := a
        asset :=
          match assetVal data with
          | some v => if jsTruthy v then asStringVal v else USDC_ADDRESS_BASE
          | none => USDC_ADDRESS_BASE
        network := jsNumber? (networkVal data)
        validAfter := va
        validBefore := vb } := by
  simp only [parsePaymentHeader, hva, hvb]
  rw [if_neg (by omega : ¬ vb ≤ now)]
  rw [if_neg (by simp [hrec, hamt] :
    ¬ (truthyOpt (recipientVal data) && truthyOpt (amountVal data)) = false)]
  rw [hbig]

/-- `Headers.get` after `Headers.set` with the same (case-insensitive)
name yields the value just set. -/
theorem headersGet_headersSet_self (hs : List (String × String)) (k v name : String)
    (h : asciiLower name = asciiLower k) :
    headersGet (headersSet hs k v) name = some v := by
  unfold headersGet
  rw [h]
  induction hs with
  | nil => simp [headersSet, List.find?]
  | cons hd tl ih =>
    unfold headersSet
    by_cases hhd : (hd.1 == asciiLower k) = true
    · rw [if_pos hhd]
      simp [List.find?]
    · rw [if_neg hhd]
      have hhd2 : (hd.1 == asciiLower k) = false := by simpa using hhd
      simp only [List.find?, hhd2]
      exact ih

/-- `Headers.get` for any other name is unaffected by a `Headers.set`. -/
theorem headersGet_headersSet_other (hs : List (String × String)) (k v name : String)
    (h : asciiLower name ≠ asciiLower k) :
    headersGet (headersSet hs k v) name = headersGet hs name := by
  unfold headersGet
  have p1 : (asciiLower k == asciiLower name) = false := by
    simp only [beq_eq_false_iff_ne, ne_eq]
    exact fun hc => h hc.symm
  induction hs with
  | nil => simp [headersSet, List.find?, p1]
  | cons hd tl ih =>
    unfold headersSet
    by_cases hhd : (hd.1 == asciiLower k) = true
    · rw [if_pos hhd]
      have hd1 : hd.1 = asciiLower k := by simpa using hhd
      have p2 : (hd.1 == asciiLower name) = false := by rw [hd1]; exact p1
      simp only [List.find?, p1, p2]
    · rw [if_neg hhd]
      by_cases hn : (hd.1 == asciiLower name) = true
      · simp only [List.find?, hn]
      · have hn2 : (hd.1 == asciiLower name) = false := by simpa using hn
        simp only [List.find?, hn2]
        exact ih

/-! ## Claim theorems -/

/-- C1: for every URL string — including any containing the shell
metacharacters `;`, backtick, dollar-paren, or `|` — `awalPay` places
that URL verbatim as the single element at index 3 of the argument
vector it hands to the argv-based process-spawn primitive (`execFile`,
which spawns `npx` with a literal argument vector and no shell), so no
argument is ever interpolated into a shell command string. -/
theorem claimC1 (url : String) (method : Option String) (body : Option String)
    (headers : Option (List (String × String))) :
    (awalPayInvocation url method body headers).args.get? 3 = some url ∧
    url ∈ (awalPayInvocation url method body headers).args ∧
    (awalPayInvocation url method body headers).file = "npx" ∧
    (awalPayInvocation url method body headers).usesShell = false := by
  refine ⟨?_, ?_, ?_, ?_⟩ <;>
    (unfold awalPayInvocation
     cases method <;> cases body <;> cases headers <;> dsimp only <;>
       first
         | rfl
         | (split_ifs <;> first | rfl | simp)
         | simp)

/-- C2 counterexample: a base64/JSON-decodable payload that is missing
its recipient while `validBefore = 10 ≤ now = 1000` is rejected with the
expired kind, not the malformed kind the claim requires for missing
recipient or amount "even when the payload has `validBefore ≤ now`". -/
theorem claimC2_counterexample :
    parsePaymentHeader (some payloadC2) 1000 = .error .expired ∧
    ParseErrorKind.expired ≠ ParseErrorKind.missingRecipientOrAmount ∧
    ParseErrorKind.expired.isMalformed = false := ⟨rfl, by decide, rfl⟩

/-- C2 (amended): the expiry check runs before the missing-field check.
For every decodable payload, once the validity window resolves, a
resolved `validBefore ≤ now` signals the expired kind (even when
recipient or amount is missing), while a missing or falsy recipient or
amount signals the malformed-requirements (missing-field) kind only when
the expiry check passes; the two kinds are distinct. -/
theorem claimC2 (data : PaymentPayloadJson) (now va vb : Int)
    (hva : resolvedValidAfter? data = some va)
    (hvb : resolvedValidBefore? data now = some vb) :
    (vb ≤ now → parsePaymentHeader (some data) now = .error .expired) ∧
    (now < vb →
      (truthyOpt (recipientVal data) = false ∨ truthyOpt (amountVal data) = false) →
      parsePaymentHeader (some data) now = .error .missingRecipientOrAmount) ∧
    ParseErrorKind.expired.isMalformed = false ∧
    ParseErrorKind.missingRecipientOrAmount.isMalformed = true := by
  refine ⟨?_, ?_, rfl, rfl⟩
  · intro h
    simp only [parsePaymentHeader, hva, hvb]
    rw [if_pos h]
  · intro h1 h2
    simp only [parsePaymentHeader, hva, hvb]
    rw [if_neg (by omega : ¬ vb ≤ now)]
    rw [if_pos (by rcases h2 with h2 | h2 <;> simp [h2])]

/-- C2 witness: both branches of the amended claim evaluated at concrete
payloads. -/
theorem claimC2_witness :
    (resolvedValidAfter? payloadC2 = some 0 ∧ resolvedValidBefore? payloadC2 1000 = some 10 ∧
      resolvedValidAfter? payloadC2b = some 0 ∧
      resolvedValidBefore? payloadC2b 1000 = some 5000) ∧
    parsePaymentHeader (some payloadC2) 1000 = .error .expired ∧
    parsePaymentHeader (some payloadC2b) 1000 = .error .missingRecipientOrAmount :=
  ⟨⟨rfl, rfl, rfl, rfl⟩,
    (claimC2 payloadC2 1000 0 10 rfl rfl).1 (by decide),
    (claimC2 payloadC2b 1000 0 5000 rfl rfl).2.1 (by decide) (Or.inl rfl)⟩

/-- C3: on the local-signing path, when the initial request returns 402
and the single retry (carrying the payment header) also returns 402, the
orchestrator raises the distinct payment-rejected error carrying the
retry response's body text and the original parsed requirements, and
issues no third network request (exactly two requests leave). -/
theorem claimC3 (w : World) (url : String) (opts : RequestOptions)
    (r1 r2 : Response) (rest : List Response) (req : PaymentRequirements)
    (wallet : WalletIdentity) (signed : SignedTransferAuthorization)
    (hscript : w.script = r1 :: r2 :: rest)
    (h1 : r1.status = 402) (h2 : r2.status = 402)
    (hcfg : (getPaymentConfig (isAwalForced w.forceAwalEnv) w.awalStatus w.walletKey
      w.deriveAddr).method = PaymentMethod.direct)
    (hparse : parsePaymentRequired w.decode w.now r1 = .ok (some req))
    (hwallet : w.createWalletResult = .ok wallet)
    (hsign : (signPayment wallet req w.nonce w.signerSig).1 = .ok signed) :
    (fetchWithPayment w url opts).1 =
      .error (.rejected (if r2.body = "" then "no details" else r2.body) req) ∧
    (fetchWithPayment w url opts).2.length = 2 := by
  have hfetch : fetchWithPayment w url opts =
      (.error (.rejected (if r2.body = "" then "no details" else r2.body) req),
       [{ url := url, method := opts.method, body := opts.body,
          headers := buildHeaders opts.headers [("Content-Type", "application/json")] },
        { url := url, method := opts.method, body := opts.body,
          headers := buildHeaders opts.headers
            [("Content-Type", "application/json"), ("X-PAYMENT", w.encodeHeader signed)] }]) := by
    unfold fetchWithPayment handleDirectPayment
    rw [hscript]
    simp only [List.get?, h1, hcfg, hparse, hwallet, hsign, h2, bne_self_eq_false,
      Bool.false_eq_true, if_false, if_pos]
    simp
  rw [hfetch]
  exact ⟨rfl, rfl⟩

set_option maxRecDepth 8000 in
/-- C3 witness: a concrete scripted double-402 run, every hypothesis of
`claimC3` discharged by evaluation. -/
theorem claimC3_witness :
    (worldC3.script = r1C3 :: r2C3 :: [] ∧ r1C3.status = 402 ∧ r2C3.status = 402 ∧
      (getPaymentConfig (isAwalForced worldC3.forceAwalEnv) worldC3.awalStatus
        worldC3.walletKey worldC3.deriveAddr).method = PaymentMethod.direct ∧
      parsePaymentRequired worldC3.decode worldC3.now r1C3 = .ok (some reqC3) ∧
      worldC3.createWalletResult = .ok walletC3 ∧
      (signPayment walletC3 reqC3 worldC3.nonce worldC3.signerSig).1 = .ok signedC3) ∧
    (fetchWithPayment worldC3 "https://api.nullpath.com/x" {}).1 =
      .error (.rejected (if r2C3.body = "" then "no details" else r2C3.body) reqC3) ∧
    (fetchWithPayment worldC3 "https://api.nullpath.com/x" {}).2.length = 2 :=
  ⟨⟨rfl, rfl, rfl, rfl, rfl, rfl, rfl⟩,
    (claimC3 worldC3 "https://api.nullpath.com/x" {} r1C3 r2C3 [] reqC3 walletC3 signedC3
      rfl rfl rfl rfl rfl rfl rfl).1,
    (claimC3 worldC3 "https://api.nullpath.com/x" {} r1C3 r2C3 [] reqC3 walletC3 signedC3
      rfl rfl rfl rfl rfl rfl rfl).2⟩

/-- C4: for every wallet identity and requirements object whose network
is not the configured chain id 8453 or whose asset differs from the
configured USDC contract address under case-insensitive comparison,
`signPayment` raises the requirements-mismatch error with zero calls to
the underlying typed-data signer. -/
theorem claimC4 (wallet : WalletIdentity) (req : PaymentRequirements) (nonce sig : String)
    (h : req.network ≠ some EXPECTED_NETWORK ∨
      asciiLower req.asset ≠ asciiLower USDC_ADDRESS_BASE) :
    signPayment wallet req nonce sig = (.error .requirementsMismatch, 0) := by
  unfold signPayment
  rcases h with h | h <;> simp [h]

/-- C4 witness: a requirements object on network 1 is rejected before
signing. -/
theorem claimC4_witness :
    (({ recipient := "0xR", amount := 5, asset := USDC_ADDRESS_BASE, network := some 1,
        validAfter := 0, validBefore := 99 } : PaymentRequirements).network ≠
          some EXPECTED_NETWORK) ∧
    signPayment { address := "0xA" }
      { recipient := "0xR", amount := 5, asset := USDC_ADDRESS_BASE, network := some 1,
        validAfter := 0, validBefore := 99 } "0xN" "sig" =
      (.error .requirementsMismatch, 0) :=
  ⟨by decide, claimC4 _ _ _ _ (Or.inl (by decide))⟩

/-- C5: with the force-delegate flag set, whenever the delegate probe
reports unavailable or unauthenticated, `getPaymentConfig` selects the
method `none` — for every configured local key, with no fallback to
local signing. -/
theorem claimC5 (st : AwalStatus) (walletKey : Option String)
    (deriveAddr : String → Option String)
    (h : st.available = false ∨ st.authenticated = false) :
    (getPaymentConfig true st walletKey deriveAddr).method = PaymentMethod.none := by
  unfold getPaymentConfig
  rcases h with h | h <;> simp [h]

/-- C5 witness: an available-but-unauthenticated probe with a configured
local key still selects no payment method when forcing is on. -/
theorem claimC5_witness :
    ((AwalStatus.mk true false none none).available = false ∨
      (AwalStatus.mk true false none none).authenticated = false) ∧
    (getPaymentConfig true (AwalStatus.mk true false none none) (some "0xkey")
      (fun _ => some "0xAddr")).method = PaymentMethod.none :=
  ⟨Or.inr rfl, claimC5 _ (some "0xkey") _ (Or.inr rfl)⟩

/-- C6 counterexample: a valid 402 payload supplying the amount
`2 ^ 53 + 1 = 9007199254740993` as a JSON number parses to the amount
`9007199254740992` — `JSON.parse` rounds the literal to the nearest
double before `BigInt` conversion, so the claim's exactness for JSON
numbers beyond `2 ^ 53` fails. -/
theorem claimC6_counterexample :
    parsePaymentHeader (some payloadC6) 1000 =
      .ok { recipient := "0xabc", amount := 9007199254740992, asset := USDC_ADDRESS_BASE,
            network := some 8453, validAfter := 0, validBefore := 99999999999 } ∧
    (9007199254740992 : Int) ≠ 9007199254740993 := ⟨rfl, by decide⟩

/-- C6 (amended): for every valid 402 payload with a resolved
`validBefore > now`, the parsed `amount` equals the supplied numeric
value exactly as an arbitrary-precision integer when the amount is a
numeric string (of any size, including beyond `2 ^ 53`), and when the
amount is a JSON number of magnitude at most `2 ^ 53`; JSON-number
amounts beyond `2 ^ 53` are rounded to the nearest double by the JSON
parse step. -/
theorem claimC6 (d1 d2 : PaymentPayloadJson) (now1 now2 va1 vb1 va2 vb2 n m : Int) (s : String)
    (h1amt : d1.amount = some (.str s)) (hs : s ≠ "") (h1big : bigIntOfString? s = some n)
    (h1rec : truthyOpt (recipientVal d1) = true)
    (h1va : resolvedValidAfter? d1 = some va1)
    (h1vb : resolvedValidBefore? d1 now1 = some vb1) (h1lt : now1 < vb1)
    (h2amt : d2.amount = some (.num m)) (hm0 : m ≠ 0) (hm : m.natAbs ≤ 2 ^ 53)
    (h2rec : truthyOpt (recipientVal d2) = true)
    (h2va : resolvedValidAfter? d2 = some va2)
    (h2vb : resolvedValidBefore? d2 now2 = some vb2) (h2lt : now2 < vb2) :
    (∃ r, parsePaymentHeader (some d1) now1 = .ok r ∧ r.amount = n) ∧
    (∃ r, parsePaymentHeader (some d2) now2 = .ok r ∧ r.amount = m) := by
  constructor
  · have hav : amountVal d1 = some (.str s) := by
      simp [amountVal, jsOr2, h1amt, jsValOf, jsTruthy, hs]
    have hamt : truthyOpt (amountVal d1) = true := by simp [hav, truthyOpt, jsTruthy, hs]
    have hbig : (amountVal d1).bind jsBigInt? = some n := by simp [hav, jsBigInt?, h1big]
    exact ⟨_, parsePaymentHeader_ok d1 now1 va1 vb1 n h1va h1vb h1lt h1rec hamt hbig, rfl⟩
  · have hround : intRoundToDouble m = m := intRoundToDouble_eq_self m hm
    have hav : amountVal d2 = some (.num m) := by
      simp [amountVal, jsOr2, h2amt, jsValOf, hround, jsTruthy, hm0]
    have hamt : truthyOpt (amountVal d2) = true := by simp [hav, truthyOpt, jsTruthy, hm0]
    have hbig : (amountVal d2).bind jsBigInt? = some m := by simp [hav, jsBigInt?]
    exact ⟨_, parsePaymentHeader_ok d2 now2 va2 vb2 m h2va h2vb h2lt h2rec hamt hbig, rfl⟩

/-- C6 witness: the string `"9007199254740993"` (beyond `2 ^ 53`) parses
to exactly `9007199254740993`, and the JSON number 7 to 7. -/
theorem claimC6_witness :
    (payloadC6a.amount = some (.str "9007199254740993") ∧
      bigIntOfString? "9007199254740993" = some 9007199254740993 ∧
      payloadC6b.amount = some (.num 7)) ∧
    (∃ r, parsePaymentHeader (some payloadC6a) 1000 = .ok r ∧ r.amount = 9007199254740993) ∧
    (∃ r, parsePaymentHeader (some payloadC6b) 1000 = .ok r ∧ r.amount = 7) :=
  ⟨⟨rfl, rfl, rfl⟩,
    (claimC6 payloadC6a payloadC6b 1000 1000 0 2000 0 2000 9007199254740993 7
      "9007199254740993" rfl (by decide) rfl rfl rfl rfl (by decide) rfl (by decide)
      (by decide) rfl rfl rfl (by decide)).1,
    (claimC6 payloadC6a payloadC6b 1000 1000 0 2000 0 2000 9007199254740993 7
      "9007199254740993" rfl (by decide) rfl rfl rfl rfl (by decide) rfl (by decide)
      (by decide) rfl rfl rfl (by decide)).2⟩

/-- C7: `signTransferAuthorization` hard-errors on every signer output
whose length is not exactly 132 characters (65 bytes with the `0x`
prefix) without decomposing it, and accepts exactly the length-132
signatures, splitting them into the `v`, `r`, `s` components. -/
theorem claimC7 (addr : String) (params : TransferAuthorizationParams) (sig : String)
    (hfrom : asciiLower params.fromAddr = asciiLower addr) :
    (sig.length ≠ 132 →
      (signTransferAuthorization (some addr) params sig).1 = .error (.badLength sig.length)) ∧
    (∀ signed, (signTransferAuthorization (some addr) params sig).1 = .ok signed →
      sig.length = 132 ∧ signed.signature = sig ∧
      signed.r = "0x" ++ strSlice sig 2 66 ∧
      signed.s = "0x" ++ strSlice sig 66 130 ∧
      signed.v = hexNat? (strSlice sig 130 132)) := by
  unfold signTransferAuthorization
  constructor
  · intro h; simp [hfrom, h]
  · intro signed h
    by_cases hl : sig.length = 132
    · simp [hfrom, hl] at h
      exact ⟨hl, by rw [← h], by rw [← h], by rw [← h], by rw [← h]⟩
    · simp [hfrom, hl] at h

/-- C7 witness: a 5-character signature is rejected with its length. -/
theorem claimC7_witness :
    (asciiLower "0xAB" = asciiLower "0xab") ∧
    (signTransferAuthorization (some "0xab")
      { fromAddr := "0xAB", toAddr := "0xR", value := 1, validAfter := 0,
        validBefore := 9, nonce := "0xN" } "short").1 = .error (.badLength 5) :=
  ⟨by decide,
    (claimC7 "0xab"
      { fromAddr := "0xAB", toAddr := "0xR", value := 1, validAfter := 0,
        validBefore := 9, nonce := "0xN" } "short" (by decide)).1 (by decide)⟩

/-- C8 counterexample: with caller headers carrying
`Content-Type: text/plain`, the initial request of `fetchWithPayment` is
issued with `content-type: application/json` — the merged default
overwrites the caller's value instead of the caller winning. -/
theorem claimC8_counterexample :
    (fetchWithPayment worldC8 "https://api.example" optsC8).2 =
      [{ url := "https://api.example", method := none, body := none,
         headers := [("content-type", "application/json")] }] ∧
    ("application/json" : String) ≠ "text/plain" := ⟨rfl, by decide⟩

/-- C8 (amended): the merged default wins on conflict — for every
caller header list, the initial request's `Content-Type` is
`application/json` even when the caller supplied one, while
caller-supplied headers under any other name are preserved unchanged. -/
theorem claimC8 (base : List (String × String)) (name : String)
    (h : asciiLower name ≠ asciiLower "Content-Type") :
    headersGet (buildHeaders base [("Content-Type", "application/json")]) "Content-Type"
      = some "application/json" ∧
    headersGet (buildHeaders base [("Content-Type", "application/json")]) name
      = headersGet (mkHeaders base) name := by
  have hb : buildHeaders base [("Content-Type", "application/json")]
      = headersSet (mkHeaders base) "Content-Type" "application/json" := rfl
  rw [hb]
  exact ⟨headersGet_headersSet_self _ _ _ _ rfl, headersGet_headersSet_other _ _ _ _ h⟩

/-- C8 witness: concrete caller headers with both a conflicting
`Content-Type` and an untouched `Authorization` entry. -/
theorem claimC8_witness :
    (asciiLower "Authorization" ≠ asciiLower "Content-Type") ∧
    headersGet (buildHeaders [("Content-Type", "text/plain"), ("Authorization", "Bearer t")]
      [("Content-Type", "application/json")]) "Content-Type" = some "application/json" ∧
    headersGet (buildHeaders [("Content-Type", "text/plain"), ("Authorization", "Bearer t")]
      [("Content-Type", "application/json")]) "Authorization" =
      headersGet (mkHeaders [("Content-Type", "text/plain"), ("Authorization", "Bearer t")])
        "Authorization" :=
  ⟨by decide,
    (claimC8 [("Content-Type", "text/plain"), ("Authorization", "Bearer t")] "Authorization"
      (by decide)).1,
    (claimC8 [("Content-Type", "text/plain"), ("Authorization", "Bearer t")] "Authorization"
      (by decide)).2⟩

/-- C9 counterexample: `formatUsdcAmount 1000` is not the claimed
`"$0.001000"` — the source appends a `" USDC"` suffix. -/
theorem claimC9_counterexample : formatUsdcAmount 1000 ≠ "$0.001000" := by decide

/-- C9 (amended): `formatUsdcAmount` renders the exact decimal digits of
the amount split at six fractional places with bigint arithmetic and a
`" USDC"` suffix: 1000 gives `"$0.001000 USDC"`, 0 gives
`"$0.000000 USDC"`, the beyond-`2 ^ 53` value 9007199254740993 renders
its exact digits, and every non-negative amount renders as the truncated
quotient and the six-digit-padded remainder by `10 ^ 6`. -/
theorem claimC9 :
    formatUsdcAmount 1000 = "$0.001000 USDC" ∧
    formatUsdcAmount 0 = "$0.000000 USDC" ∧
    formatUsdcAmount 9007199254740993 = "$9007199254.740993 USDC" ∧
    (∀ a : Nat, formatUsdcAmount (a : Int) =
      "$" ++ toString (a / 1000000) ++ "." ++
        padStart (toString (a % 1000000)) 6 '0' ++ " USDC") := by
  refine ⟨rfl, rfl, rfl, fun a => rfl⟩

/-- C10 counterexample: the claim as frozen quantifies over every
structurally valid amount-0 payload, but a payload with a recipient,
the amount 0, and `validBefore = 50 ≤ now = 1000` is rejected with the
expired kind — the source runs the expiry check before the missing-field
check — not the claimed malformed-requirements kind. -/
theorem claimC10_counterexample :
    parsePaymentHeader (some payloadC10c) 1000 = .error .expired ∧
    ParseErrorKind.expired ≠ ParseErrorKind.missingRecipientOrAmount ∧
    ParseErrorKind.expired.isMalformed = false := ⟨rfl, by decide, rfl⟩

/-- C10 (amended): with the falsy-or field extraction, a structurally
valid payload whose amount is the JSON number 0 (and with no
`maxAmountRequired`) is — provided the expiry check passes, which the
source runs first — rejected with the missing-field
(malformed-requirements) kind rather than yielding a zero amount; and a
payload whose `validBefore` is the JSON number 0 silently receives the
default window `now + 300` instead of being rejected as expired. -/
theorem claimC10 (d1 d2 : PaymentPayloadJson) (now1 now2 va1 vb1 va2 a2 : Int)
    (h1amt : d1.amount = some (.num 0)) (h1max : d1.maxAmountRequired = none)
    (h1va : resolvedValidAfter? d1 = some va1)
    (h1vb : resolvedValidBefore? d1 now1 = some vb1) (h1lt : now1 < vb1)
    (h2vb : d2.validBefore = some (.num 0))
    (h2va : resolvedValidAfter? d2 = some va2)
    (h2rec : truthyOpt (recipientVal d2) = true)
    (h2amt : truthyOpt (amountVal d2) = true)
    (h2big : (amountVal d2).bind jsBigInt? = some a2) :
    parsePaymentHeader (some d1) now1 = .error .missingRecipientOrAmount ∧
    (∃ r, parsePaymentHeader (some d2) now2 = .ok r ∧ r.validBefore = now2 + 300) := by
  have h0 : jsTruthy (jsValOf (JsonLit.num 0)) = false := rfl
  constructor
  · have hav : amountVal d1 = none := by
      simp [amountVal, jsOr2, h1amt, h1max, h0]
    simp only [parsePaymentHeader, h1va, h1vb]
    rw [if_neg (by omega : ¬ vb1 ≤ now1)]
    rw [if_pos (by simp [hav, truthyOpt])]
  · have hvb2 : resolvedValidBefore? d2 now2 = some (now2 + 300) := by
      simp [resolvedValidBefore?, fieldOr, h2vb, h0, jsBigInt?]
    exact ⟨_, parsePaymentHeader_ok d2 now2 va2 (now2 + 300) a2 h2va hvb2 (by omega)
      h2rec h2amt h2big, rfl⟩

/-- C10 witness: the amount-0 payload is rejected as missing and the
`validBefore`-0 payload parses with window `now + 300`. -/
theorem claimC10_witness :
    (payloadC10a.amount = some (.num 0) ∧ payloadC10a.maxAmountRequired = none ∧
      payloadC10b.validBefore = some (.num 0)) ∧
    parsePaymentHeader (some payloadC10a) 1000 = .error .missingRecipientOrAmount ∧
    (∃ r, parsePaymentHeader (some payloadC10b) 1000 = .ok r ∧ r.validBefore = 1000 + 300) :=
  ⟨⟨rfl, rfl, rfl⟩,
    (claimC10 payloadC10a payloadC10b 1000 1000 0 2000 0 7 rfl rfl rfl rfl (by decide)
      rfl rfl rfl rfl rfl).1,
    (claimC10 payloadC10a payloadC10b 1000 1000 0 2000 0 7 rfl rfl rfl rfl (by decide)
      rfl rfl rfl rfl rfl).2⟩

end Nullpath
